import Mathlib

/-!
Verification development for the RaspberryPi voice-assistant repository.

The repository is an integration layer: a camera abstraction (USB webcam via
OpenCV, Raspberry Pi camera via a system-python subprocess), thin vision
clients that base64-encode a JPEG and call a hosted generative model, a
listing-submission client that polls a remote agent-execution service, and a
conversation orchestrator that registers the clients as named tools.

This file gives a shallow embedding of those parts.  Bytes are `List Nat`
(each entry a byte value, `< 256` where relevant), remote calls and the file
system are oracles passed as function arguments, Python exceptions are
`Except`, and Python `None` is `Option.none`.  Python truthiness of strings
and bytes (empty means falsy) is modelled explicitly where the source relies
on it.
-/

namespace RaspberryPi

/-! ## Base64 (model of Python `base64.b64encode` / `b64decode` over bytes)

The standard RFC 4648 alphabet.  `b64encodeBytes` maps each 3-byte group to
four alphabet characters and pads a trailing 1- or 2-byte group with `=`.
`b64decodeChars` is the inverse, returning `none` on input that is not valid
base64 (the model of `binascii.Error`). -/

def b64Alphabet : List Char :=
  ['A', 'B', 'C', 'D', 'E', 'F', 'G', 'H', 'I', 'J', 'K', 'L', 'M',
   'N', 'O', 'P', 'Q', 'R', 'S', 'T', 'U', 'V', 'W', 'X', 'Y', 'Z',
   'a', 'b', 'c', 'd', 'e', 'f', 'g', 'h', 'i', 'j', 'k', 'l', 'm',
   'n', 'o', 'p', 'q', 'r', 's', 't', 'u', 'v', 'w', 'x', 'y', 'z',
   '0', '1', '2', '3', '4', '5', '6', '7', '8', '9', '+', '/']

def sextetChar (n : Nat) : Char := b64Alphabet.getD n 'A'

def charSextet (c : Char) : Option Nat := b64Alphabet.findIdx? (· == c)

def b64encodeBytes : List Nat → List Char
  | a :: b :: c :: rest =>
      sextetChar (a / 4) :: sextetChar (a % 4 * 16 + b / 16) ::
      sextetChar (b % 16 * 4 + c / 64) :: sextetChar (c % 64) ::
      b64encodeBytes rest
  | [a, b] =>
      [sextetChar (a / 4), sextetChar (a % 4 * 16 + b / 16),
       sextetChar (b % 16 * 4), '=']
  | [a] => [sextetChar (a / 4), sextetChar (a % 4 * 16), '=', '=']
  | [] => []

def b64decodeChars : List Char → Option (List Nat)
  | c1 :: c2 :: c3 :: c4 :: rest =>
      if rest = [] ∧ c4 = '=' then
        if c3 = '=' then
          match charSextet c1, charSextet c2 with
          | some s1, some s2 => some [s1 * 4 + s2 / 16]
          | _, _ => none
        else
          match charSextet c1, charSextet c2, charSextet c3 with
          | some s1, some s2, some s3 =>
              some [s1 * 4 + s2 / 16, s2 % 16 * 16 + s3 / 4]
          | _, _, _ => none
      else
        match charSextet c1, charSextet c2, charSextet c3, charSextet c4 with
        | some s1, some s2, some s3, some s4 =>
            match b64decodeChars rest with
            | some tail =>
                some ([s1 * 4 + s2 / 16, s2 % 16 * 16 + s3 / 4,
                       s3 % 4 * 64 + s4] ++ tail)
            | none => none
        | _, _, _, _ => none
  | [] => some []
  | _ => none

theorem charSextet_sextetChar_fin :
    ∀ n : Fin 64, charSextet (sextetChar n.val) = some n.val := by decide

theorem sextetChar_ne_pad_fin : ∀ n : Fin 64, sextetChar n.val ≠ '=' := by decide

theorem charSextet_sextetChar {n : Nat} (h : n < 64) :
    charSextet (sextetChar n) = some n :=
  charSextet_sextetChar_fin ⟨n, h⟩

theorem sextetChar_ne_pad {n : Nat} (h : n < 64) : sextetChar n ≠ '=' :=
  sextetChar_ne_pad_fin ⟨n, h⟩

/-- Decoding inverts encoding on any list of byte values. -/
theorem b64_roundtrip (bs : List Nat) (h : ∀ x ∈ bs, x < 256) :
    b64decodeChars (b64encodeBytes bs) = some bs := by
  induction bs using b64encodeBytes.induct with
  | case1 a b c rest ih =>
    have ha : a < 256 := h a (by simp)
    have hb : b < 256 := h b (by simp)
    have hc : c < 256 := h c (by simp)
    simp only [b64encodeBytes, b64decodeChars]
    rw [if_neg (by
      rintro ⟨-, hpad⟩
      exact sextetChar_ne_pad (show c % 64 < 64 by omega) hpad)]
    rw [charSextet_sextetChar (show a / 4 < 64 by omega),
        charSextet_sextetChar (show a % 4 * 16 + b / 16 < 64 by omega),
        charSextet_sextetChar (show b % 16 * 4 + c / 64 < 64 by omega),
        charSextet_sextetChar (show c % 64 < 64 by omega)]
    rw [ih (fun x hx => h x (by simp [hx]))]
    have e1 : a / 4 * 4 + (a % 4 * 16 + b / 16) / 16 = a := by omega
    have e2 : (a % 4 * 16 + b / 16) % 16 * 16 + (b % 16 * 4 + c / 64) / 4 = b := by
      omega
    have e3 : (b % 16 * 4 + c / 64) % 4 * 64 + c % 64 = c := by omega
    simp [e1, e2, e3]
  | case2 a b =>
    have ha : a < 256 := h a (by simp)
    have hb : b < 256 := h b (by simp)
    simp only [b64encodeBytes, b64decodeChars]
    rw [if_pos ⟨trivial, trivial⟩,
        if_neg (sextetChar_ne_pad (show b % 16 * 4 < 64 by omega))]
    rw [charSextet_sextetChar (show a / 4 < 64 by omega),
        charSextet_sextetChar (show a % 4 * 16 + b / 16 < 64 by omega),
        charSextet_sextetChar (show b % 16 * 4 < 64 by omega)]
    show some [a / 4 * 4 + (a % 4 * 16 + b / 16) / 16,
               (a % 4 * 16 + b / 16) % 16 * 16 + b % 16 * 4 / 4] = some [a, b]
    have e1 : a / 4 * 4 + (a % 4 * 16 + b / 16) / 16 = a := by omega
    have e2 : (a % 4 * 16 + b / 16) % 16 * 16 + b % 16 * 4 / 4 = b := by omega
    rw [e1, e2]
  | case3 a =>
    have ha : a < 256 := h a (by simp)
    simp only [b64encodeBytes, b64decodeChars]
    rw [if_pos ⟨trivial, trivial⟩]
    rw [charSextet_sextetChar (show a / 4 < 64 by omega),
        charSextet_sextetChar (show a % 4 * 16 < 64 by omega)]
    show some [a / 4 * 4 + a % 4 * 16 / 16] = some [a]
    have e1 : a / 4 * 4 + a % 4 * 16 / 16 = a := by omega
    rw [e1]
  | case4 => rfl

/-- Base64 encoding of bytes as a Python `str` (model of
`base64.b64encode(image_bytes).decode('utf-8')`). -/
def b64encodeString (bs : List Nat) : String := ⟨b64encodeBytes bs⟩

/-- Base64 decoding of a Python `str` (model of `base64.b64decode`);
`none` models the `binascii.Error` raised on invalid input. -/
def b64decodeString (s : String) : Option (List Nat) := b64decodeChars s.data

theorem b64_string_roundtrip (bs : List Nat) (h : ∀ x ∈ bs, x < 256) :
    b64decodeString (b64encodeString bs) = some bs :=
  b64_roundtrip bs h

/-! ## Camera base class (`src/camera/base.py`, class `CameraCapture`)

A camera's `capture()` outcome is `Option (List Nat)`: `none` models Python
`None` (the failure signal), `some bs` the returned JPEG bytes.  The source's
`if image_bytes:` tests truthiness, so the empty byte string `some []` takes
the failure branch as well. -/

/-- `CameraCapture.capture_base64`: capture, then base64-encode when the
result is truthy, else return `None`. -/
def capture_base64 (captureResult : Option (List Nat)) : Option String :=
  match captureResult with
  | some image_bytes =>
      if image_bytes = [] then none else some (b64encodeString image_bytes)
  | none => none

/-- Outcome of the `open(filepath, 'wb').write(...)` call inside
`save_capture`; `ioError` models the `IOError` the source catches. -/
inductive WriteOutcome where
  | ok
  | ioError (msg : String)

/-- `CameraCapture.save_capture`: capture, and when the result is truthy try
to write it; returns the Python return value together with the file content
durably written (`none` when no write completed). -/
def save_capture (captureResult : Option (List Nat))
    (write : List Nat → WriteOutcome) : Bool × Option (List Nat) :=
  match captureResult with
  | some image_bytes =>
      if image_bytes = [] then (false, none)
      else
        match write image_bytes with
        | .ok => (true, some image_bytes)
        | .ioError _ => (false, none)
  | none => (false, none)

/-! ## USB camera (`src/src/RaspberryPi/camera/usb_camera.py`, class `USBCamera`)

The OpenCV `VideoCapture` handle is modelled by `CVDevice`: whether it
reports open, and what its next `read()` yields (`none` models `ret ==
False`, `some f` a frame handle).  JPEG encoding (`cv2.imencode`) is an
oracle.  Every OpenCV call the method issues is recorded in a `CVAction`
trace so the claims about grab/read/encode ordering and about release being
issued can be stated. -/

structure CVDevice where
  opened : Bool
  readResult : Option Nat
  deriving DecidableEq

inductive CVAction where
  | grab
  | read
  | encodeJpeg (frame : Nat) (quality : Nat)
  | releaseDevice
  deriving DecidableEq

structure USBCamera where
  device_index : Nat
  cap : Option CVDevice
  deriving DecidableEq

/-- `USBCamera.__init__`: store the device index; `self._cap = None`. -/
def USBCamera.init (device_index : Nat) : USBCamera :=
  { device_index := device_index, cap := none }

/-- `USBCamera._get_capture`: reuse the handle when it is present and open,
otherwise open a fresh one (`cv2.VideoCapture(self.device_index)`, the
`videoCapture` oracle). -/
def USBCamera.getCapture (cam : USBCamera) (videoCapture : CVDevice) :
    USBCamera × CVDevice :=
  match cam.cap with
  | some d =>
      if d.opened then (cam, d)
      else ({ cam with cap := some videoCapture }, videoCapture)
  | none => ({ cam with cap := some videoCapture }, videoCapture)

/-- `USBCamera.capture`: get the handle; if it is not open return `None`;
otherwise issue five `cap.grab()` calls to flush stale buffered frames, one
`cap.read()`, and on a successful read encode the frame as JPEG at quality
90; any failure yields `None`. -/
def USBCamera.capture (cam : USBCamera) (videoCapture : CVDevice)
    (imencode : Nat → Nat → Option (List Nat)) :
    Option (List Nat) × USBCamera × List CVAction :=
  let (cam', d) := cam.getCapture videoCapture
  if d.opened then
    let flush := List.replicate 5 CVAction.grab
    match d.readResult with
    | none => (none, cam', flush ++ [CVAction.read])
    | some frame =>
        match imencode frame 90 with
        | none => (none, cam', flush ++ [CVAction.read, CVAction.encodeJpeg frame 90])
        | some buffer =>
            (some buffer, cam', flush ++ [CVAction.read, CVAction.encodeJpeg frame 90])
  else (none, cam', [])

/-- `USBCamera.release`: release the underlying handle when one is held and
clear `self._cap`; a no-op when `self._cap is None`. -/
def USBCamera.release (cam : USBCamera) : USBCamera × List CVAction :=
  match cam.cap with
  | some _ => ({ cam with cap := none }, [CVAction.releaseDevice])
  | none => (cam, [])

/-! ## Pi camera (`src/src/RaspberryPi/camera/pi_camera.py`, class `PiCamera`)

`is_available` shells out to system python with a check script; the outcome
of the n-th subprocess probe actually executed is given by an oracle.  The
source caches the computed boolean in `self._available` on every path
(success, failure, timeout, exception alike). -/

inductive ProbeOutcome where
  | ran (returncode : Nat) (stdout : String)
  | timeoutExpired
  | exn (msg : String)

/-- The boolean `PiCamera.is_available` computes from one subprocess probe:
`result.returncode == 0 and "OK" in result.stdout`; a timeout or an
exception yields `False`. -/
def probeAvailable : ProbeOutcome → Bool
  | .ran returncode stdout => returncode == 0 && decide ("OK".data <:+: stdout.data)
  | .timeoutExpired => false
  | .exn _ => false

structure PiCamera where
  _available : Option Bool
  deriving DecidableEq

/-- `PiCamera.__init__`: `self._available = None`. -/
def PiCamera.init : PiCamera := ⟨none⟩

/-- `PiCamera.is_available` with `probe` the subprocess oracle and `n` the
number of probes executed so far: return the cached value without probing
when `self._available is not None`, else run one probe and cache its
boolean.  Returns (result, new state, new probe count). -/
def PiCamera.is_available (cam : PiCamera) (probe : Nat → ProbeOutcome)
    (n : Nat) : Bool × PiCamera × Nat :=
  match cam._available with
  | some v => (v, cam, n)
  | none =>
      let v := probeAvailable (probe n)
      (v, ⟨some v⟩, n + 1)

/-- A fresh `PiCamera` driven through `k` successive `is_available` calls:
the list of results, the final state, and how many probes ran. -/
def PiCamera.availCalls (probe : Nat → ProbeOutcome) :
    Nat → List Bool × PiCamera × Nat
  | 0 => ([], PiCamera.init, 0)
  | k + 1 =>
      let (rs, cam, n) := PiCamera.availCalls probe k
      let (v, cam', n') := cam.is_available probe n
      (rs ++ [v], cam', n')

/-- `PiCamera.release`: `pass` — leaves the state untouched. -/
def PiCamera.release (cam : PiCamera) : PiCamera := cam

/-! ## Vision analysis clients

One class per task: `CashRecognizer` (`src/src/RaspberryPi/tools/cash_recognition.py`),
`PackagingReader` (`src/src/RaspberryPi/tools/packaging_reader.py`),
`ItemRecognizer` (`src/tools/item_recognition.py`).  Each method wraps its
body in `try/except`; the remote `model.generate_content([PROMPT, part])`
call is an oracle taking the prompt and the base64 image-part data and
returning either the response text or an exception (`PyError` carries
`str(e)`).  The fixed prompts are identified by their opening line. -/

/-- A Python exception as observed by an `except` handler: `str(e)`. -/
structure PyError where
  msg : String

/-- Python truthiness of an optional string: `None` and `""` are falsy. -/
def strTruthy : Option String → Bool
  | some s => !(s == "")
  | none => false

/-- Outcome of `open(filepath, 'rb').read()`: contents, a
`FileNotFoundError`, or some other exception. -/
inductive FileReadOutcome where
  | ok (contents : List Nat)
  | fileNotFound
  | exn (msg : String)

/-- Model of `str(binascii.Error)` raised by `base64.b64decode` on invalid
input (exact exception text abstracted). -/
def binasciiErrorMsg : String := "Invalid base64-encoded string"

def BANKNOTE_PROMPT : String :=
  "Analyze this image and identify all banknotes/paper currency visible."

def PACKAGING_PROMPT : String :=
  "Analyze this image and read all text visible on the packaging, label, or box."

def ECOMMERCE_ITEM_PROMPT : String :=
  "Analyze this image and identify the item for an eBay listing."

/-- `CashRecognizer.__init__`: take the explicit key if truthy, else
`os.getenv(\x22GOOGLE_API_KEY\x22)`; raise `ValueError` when the result is
falsy. -/
def CashRecognizer.init (api_key : Option String) (env : String → Option String) :
    Except String String :=
  let key := if strTruthy api_key then api_key else env "GOOGLE_API_KEY"
  if strTruthy key then .ok (key.getD "")
  else .error "Google API key required. Set GOOGLE_API_KEY environment variable."

/-- `CashRecognizer.analyze_image_bytes`. -/
def CashRecognizer.analyze_image_bytes
    (generate_content : String → String → Except PyError String)
    (image_bytes : List Nat) : String :=
  match generate_content BANKNOTE_PROMPT (b64encodeString image_bytes) with
  | .ok text => text
  | .error e => "Sorry, I had trouble analyzing the image: " ++ e.msg

/-- `CashRecognizer.analyze_image_file`. -/
def CashRecognizer.analyze_image_file
    (generate_content : String → String → Except PyError String)
    (readFile : String → FileReadOutcome) (filepath : String) : String :=
  match readFile filepath with
  | .ok image_bytes => CashRecognizer.analyze_image_bytes generate_content image_bytes
  | .fileNotFound => "Sorry, I couldn't find the image file: " ++ filepath
  | .exn msg => "Sorry, I had trouble reading the image: " ++ msg

/-- `CashRecognizer.analyze_base64`. -/
def CashRecognizer.analyze_base64
    (generate_content : String → String → Except PyError String)
    (image_base64 : String) : String :=
  match b64decodeString image_base64 with
  | some image_bytes => CashRecognizer.analyze_image_bytes generate_content image_bytes
  | none => "Sorry, I had trouble decoding the image: " ++ binasciiErrorMsg

/-- The `analyze*` methods the `CashRecognizer` class body defines. -/
def CashRecognizer.analyzeMethods : List String :=
  ["analyze_image_bytes", "analyze_image_file", "analyze_base64"]

/-- `PackagingReader.analyze_image_bytes`. -/
def PackagingReader.analyze_image_bytes
    (generate_content : String → String → Except PyError String)
    (image_bytes : List Nat) : String :=
  match generate_content PACKAGING_PROMPT (b64encodeString image_bytes) with
  | .ok text => text
  | .error e => "Sorry, I had trouble reading the packaging: " ++ e.msg

/-- `PackagingReader.analyze_image_file`. -/
def PackagingReader.analyze_image_file
    (generate_content : String → String → Except PyError String)
    (readFile : String → FileReadOutcome) (filepath : String) : String :=
  match readFile filepath with
  | .ok image_bytes => PackagingReader.analyze_image_bytes generate_content image_bytes
  | .fileNotFound => "Sorry, I couldn't find the image file: " ++ filepath
  | .exn msg => "Sorry, I had trouble reading the image: " ++ msg

/-- The `analyze*` methods the `PackagingReader` class body defines: bytes
and file only — the class has no `analyze_base64`. -/
def PackagingReader.analyzeMethods : List String :=
  ["analyze_image_bytes", "analyze_image_file"]

/-- `ItemRecognizer.analyze_image_bytes`. -/
def ItemRecognizer.analyze_image_bytes
    (generate_content : String → String → Except PyError String)
    (image_bytes : List Nat) : String :=
  match generate_content ECOMMERCE_ITEM_PROMPT (b64encodeString image_bytes) with
  | .ok text => text
  | .error e => "Sorry, I had trouble analyzing the image: " ++ e.msg

/-- `ItemRecognizer.analyze_image_file`. -/
def ItemRecognizer.analyze_image_file
    (generate_content : String → String → Except PyError String)
    (readFile : String → FileReadOutcome) (filepath : String) : String :=
  match readFile filepath with
  | .ok image_bytes => ItemRecognizer.analyze_image_bytes generate_content image_bytes
  | .fileNotFound => "Sorry, I couldn't find the image file: " ++ filepath
  | .exn msg => "Sorry, I had trouble reading the image: " ++ msg

/-- `ItemRecognizer.analyze_base64`. -/
def ItemRecognizer.analyze_base64
    (generate_content : String → String → Except PyError String)
    (image_base64 : String) : String :=
  match b64decodeString image_base64 with
  | some image_bytes => ItemRecognizer.analyze_image_bytes generate_content image_bytes
  | none => "Sorry, I had trouble decoding the image: " ++ binasciiErrorMsg

/-- The `analyze*` methods the `ItemRecognizer` class body defines. -/
def ItemRecognizer.analyzeMethods : List String :=
  ["analyze_image_bytes", "analyze_image_file", "analyze_base64"]

/-! ## Tool handlers (`src/main.py` and `src/src/main.py`)

A handler reads the global `camera` (`Option`: `none` models `camera is
None`) whose `capture()` outcome is again an `Option`.  The analysis step —
everything inside the handler's `try` block — is an oracle returning either
the result text or the exception the `except` clause would catch. -/

/-- `identify_cash_tool` (registered as the `identify_cash` client tool). -/
def identify_cash_tool (camera : Option (Option (List Nat)))
    (identify_cash : List Nat → Except PyError String) : String :=
  match camera with
  | none => "Sorry, the camera is not available. Please check the camera connection."
  | some captureResult =>
      match captureResult with
      | none => "Sorry, I couldn't capture an image. Please check the camera."
      | some image_bytes =>
          match identify_cash image_bytes with
          | .ok result => result
          | .error e => "Sorry, I had trouble identifying the cash: " ++ e.msg

/-- `read_packaging_tool` (registered as the `read_packaging` client tool). -/
def read_packaging_tool (camera : Option (Option (List Nat)))
    (read_packaging : List Nat → Except PyError String) : String :=
  match camera with
  | none => "Sorry, the camera is not available. Please check the camera connection."
  | some captureResult =>
      match captureResult with
      | none => "Sorry, I couldn't capture an image. Please check the camera."
      | some image_bytes =>
          match read_packaging image_bytes with
          | .ok result => result
          | .error e => "Sorry, I had trouble reading the packaging: " ++ e.msg

/-- `identify_item_tool` (registered as the `identify_item` client tool,
`src/src/main.py`). -/
def identify_item_tool (camera : Option (Option (List Nat)))
    (identify_item : List Nat → Except PyError String) : String :=
  match camera with
  | none => "Sorry, the camera is not available. Please check the camera connection."
  | some captureResult =>
      match captureResult with
      | none => "Sorry, I couldn't capture an image. Please check the camera."
      | some image_bytes =>
          match identify_item image_bytes with
          | .ok result => result
          | .error e => "Sorry, I had trouble identifying the item: " ++ e.msg

/-- The structured result of `get_item_details_for_listing`.  Modelled from
the spec: the module `RaspberryPi.tools.item_recognition` with
`get_item_details_for_listing` is not in the sources; the spec gives "a
small mapping of \x7btitle, price, condition, description\x7d" with optional
field-presence checks, plus the `error` key the caller inspects.  `none`
models an absent key, `some \x22\x22` a falsy value. -/
structure ItemDetails where
  title : Option String
  price : Option String
  condition : Option String
  description : Option String
  error : Option String

/-- An exception from the listing `try` block: the `except ImportError`
branch or the generic `except Exception` branch. -/
inductive ListingError where
  | importError (msg : String)
  | exn (msg : String)

/-- `create_listing_tool` (registered as the `create_listing` client tool,
`src/src/main.py`). -/
def create_listing_tool (camera : Option (Option (List Nat)))
    (get_item_details : List Nat → Except ListingError ItemDetails)
    (create_ebay_listing :
      String → String → String → String → Option String → Except ListingError String)
    (image_url : Option String) : String :=
  match camera with
  | none => "Sorry, the camera is not available. Please check the camera connection."
  | some captureResult =>
      match captureResult with
      | none => "Sorry, I couldn't capture an image. Please check the camera."
      | some image_bytes =>
          match get_item_details image_bytes with
          | .error (.importError _) =>
              "Sorry, the Asteroid SDK is not installed. Please run: pip install asteroid-odyssey"
          | .error (.exn msg) => "Sorry, I had trouble creating the listing: " ++ msg
          | .ok item_details =>
              if strTruthy item_details.error then
                "Sorry, I had trouble analyzing the item: " ++ item_details.error.getD ""
              else
                match create_ebay_listing (item_details.title.getD "")
                    (item_details.price.getD "") (item_details.condition.getD "")
                    (item_details.description.getD "") image_url with
                | .ok result => result
                | .error (.importError _) =>
                    "Sorry, the Asteroid SDK is not installed. Please run: pip install asteroid-odyssey"
                | .error (.exn msg) => "Sorry, I had trouble creating the listing: " ++ msg

/-! ## Startup environment check (`src/main.py`, `check_environment` / `main`) -/

def requiredEnvVars : List (String × String) :=
  [("ELEVENLABS_API_KEY", "ElevenLabs API key"),
   ("ELEVENLABS_AGENT_ID", "ElevenLabs Agent ID"),
   ("GOOGLE_API_KEY", "Google Gemini API key")]

/-- `check_environment`: collect one formatted line per required variable
whose value is falsy; return the Python return value (`missing == []`)
together with the printed lines. -/
def check_environment (env : String → Option String) : Bool × List String :=
  let missing := (requiredEnvVars.filter fun p => !strTruthy (env p.1)).map
    fun p => "  - " ++ p.1 ++ ": " ++ p.2
  (missing.isEmpty, missing)

inductive StartupStep where
  | envCheck
  | wakeWordCheck
  | cameraInit
  deriving DecidableEq

/-- The prefix of `main()` up to the first resource acquisition: the
environment check, then the wake-word-file check, then `get_camera()`.  A
failed check is `sys.exit(1)` (second component `some 1`). -/
def mainStartup (env : String → Option String) (wakeWordFileExists : Bool) :
    List StartupStep × Option Nat :=
  if !(check_environment env).1 then ([.envCheck], some 1)
  else if !wakeWordFileExists then ([.envCheck, .wakeWordCheck], some 1)
  else ([.envCheck, .wakeWordCheck, .cameraInit], none)

/-! ## Asteroid agent (`src/src/RaspberryPi/tools/asteroid_agent.py`, class `AsteroidAgent`)

The remote execution API is an oracle `post : Nat → String → Except ApiError
ExecResponse`, indexed by a global attempt counter so that distinct attempts
can behave differently; the string is the agent id the attempt targets.
Every method additionally returns the list of agent ids it attempted, so the
"exactly one retry" claims are statable. -/

/-- An exception from an agent-execution call as the `except` clause sees
it: the optional `status` attribute and `str(exc)`. -/
structure ApiError where
  status : Option Nat
  msg : String
  deriving DecidableEq

structure ExecResponse where
  execution_id : String
  deriving DecidableEq

structure AgentState where
  agent_id : String
  fallback_agent_id : Option String
  deriving DecidableEq

/-- The 403 test of `_execute_agent`: `getattr(exc, "status", None)`,
falling back to scanning `str(exc)` for `"(403)"` when the attribute is
absent. -/
def effective403 (exc : ApiError) : Bool :=
  match exc.status with
  | some s => s == 403
  | none => decide ("(403)".data <:+: exc.msg.data)

/-- `AsteroidAgent._normalize_agent_id`: falsy values pass through; a value
containing `" - "` is split on it and the last piece stripped; otherwise the
value is stripped. -/
def AsteroidAgent.normalize_agent_id (value : Option String) : Option String :=
  match value with
  | none => none
  | some s =>
      if s == "" then some s
      else if decide (" - ".data <:+: s.data) then
        some (((s.splitOn " - ").getLast?.getD "").trim)
      else some s.trim

/-- Python `a or b` on optional strings. -/
def pyOrStr (a b : Option String) : Option String := if strTruthy a then a else b

/-- The id-selection part of `AsteroidAgent.__init__`: pick the first truthy
candidate among the argument and the three environment variables, normalize
it, raise `ValueError` when falsy; then derive the fallback id as the first
normalized candidate from `AGENT_PROFILE_ID`, `AGENT_ID` that is truthy and
differs from the chosen id. -/
def AsteroidAgent.initIds (agent_id : Option String) (env : String → Option String) :
    Except String AgentState :=
  let raw := pyOrStr agent_id (pyOrStr (env "ASTEROID_AGENT_ID")
    (pyOrStr (env "AGENT_ID") (env "AGENT_PROFILE_ID")))
  let aid := AsteroidAgent.normalize_agent_id raw
  if !strTruthy aid then
    .error "Agent ID required. Set ASTEROID_AGENT_ID, AGENT_ID, or AGENT_PROFILE_ID environment variable."
  else
    let aidStr := aid.getD ""
    let cand1 := AsteroidAgent.normalize_agent_id (env "AGENT_PROFILE_ID")
    let cand2 := AsteroidAgent.normalize_agent_id (env "AGENT_ID")
    let fallback :=
      if strTruthy cand1 && !(cand1 == some aidStr) then cand1
      else if strTruthy cand2 && !(cand2 == some aidStr) then cand2
      else none
    .ok ⟨aidStr, fallback⟩

/-- `AsteroidAgent._execute_agent`: post against `self.agent_id`; on an
exception whose effective status is 403 while a truthy fallback id is
configured, retry once against the fallback — committing
(`self.agent_id = fallback; self.fallback_agent_id = None`) only when that
retry returns; any other exception, and a failed retry, propagate with the
state unchanged.  Returns (outcome, new state, new attempt counter,
agent ids attempted). -/
def AsteroidAgent.execute_agent (st : AgentState)
    (post : Nat → String → Except ApiError ExecResponse) (n : Nat) :
    Except ApiError ExecResponse × AgentState × Nat × List String :=
  match post n st.agent_id with
  | .ok response => (.ok response, st, n + 1, [st.agent_id])
  | .error exc =>
      if effective403 exc && strTruthy st.fallback_agent_id then
        let fb := st.fallback_agent_id.getD ""
        match post (n + 1) fb with
        | .ok response => (.ok response, ⟨fb, none⟩, n + 2, [st.agent_id, fb])
        | .error exc2 => (.error exc2, st, n + 2, [st.agent_id, fb])
      else (.error exc, st, n + 1, [st.agent_id])

/-! ### The `create_listing` polling loop

`statuses k` is the status string the `k`-th `execution_get` call reports.
Time is idealized to the sleeps: after `k` completed iterations the elapsed
wall-clock is `k * poll_interval` (the `time.time() - start_time` the source
reads before the `k`-th status check).  `fuel` bounds the unrolling; `none`
means fuel ran out before the loop returned.  The trace records every remote
call the loop issues — the source has no cancellation call, and the trace
lets that be a theorem rather than an aside. -/

def terminalStatuses : List String := ["completed", "failed", "cancelled"]

structure PollResult where
  status : String
  execution_id : String
  deriving DecidableEq

inductive PollAction where
  | statusCheck (execution_id : String)
  | cancelExecution (execution_id : String)
  deriving DecidableEq

def pollLoop (statuses : Nat → String) (execution_id : String)
    (poll_interval max_wait : ℚ) : Nat → Nat → Option (PollResult × List PollAction)
  | 0, _ => none
  | fuel + 1, k =>
      let elapsed : ℚ := k * poll_interval
      if max_wait < elapsed then some (⟨"timeout", execution_id⟩, [])
      else
        let status := statuses k
        if status ∈ terminalStatuses then
          some (⟨status, execution_id⟩, [PollAction.statusCheck execution_id])
        else
          match pollLoop statuses execution_id poll_interval max_wait fuel (k + 1) with
          | some (r, tr) => some (r, PollAction.statusCheck execution_id :: tr)
          | none => none

/-- The polling phase of `AsteroidAgent.create_listing`, entered right after
`_execute_agent` returned `execution_id`. -/
def AsteroidAgent.create_listing_poll (statuses : Nat → String) (execution_id : String)
    (poll_interval max_wait : ℚ) (fuel : Nat) : Option (PollResult × List PollAction) :=
  pollLoop statuses execution_id poll_interval max_wait fuel 0

/-! ## Theorems -/

/-- An apologetic user-facing string: non-empty and starting with "Sorry". -/
def isApology (s : String) : Prop := s ≠ "" ∧ "Sorry".data <+: s.data

theorem isApology_append (lit msg : String)
    (h : "Sorry".data <+: lit.data) (hne : lit.data ≠ []) : isApology (lit ++ msg) := by
  constructor
  · intro heq
    have hdata : (lit ++ msg).data = [] := by rw [heq]
    rw [String.data_append] at hdata
    exact hne (List.append_eq_nil.mp hdata).1
  · rw [String.data_append]
    exact h.trans (List.prefix_append _ _)

/-- C1: with the camera present but `capture()` returning the failure signal
`None`, each of the four registered tool handlers (`identify_cash`,
`read_packaging`, `identify_item`, `create_listing`) returns the fixed
non-empty apology and consults no analysis oracle — in particular no
exception can reach the caller on that path. -/
theorem tool_handlers_capture_failure_apologize :
    ∀ (identify_cash read_packaging identify_item : List Nat → Except PyError String)
      (get_item_details : List Nat → Except ListingError ItemDetails)
      (create_ebay_listing :
        String → String → String → String → Option String → Except ListingError String)
      (image_url : Option String),
      identify_cash_tool (some none) identify_cash =
          "Sorry, I couldn't capture an image. Please check the camera." ∧
      read_packaging_tool (some none) read_packaging =
          "Sorry, I couldn't capture an image. Please check the camera." ∧
      identify_item_tool (some none) identify_item =
          "Sorry, I couldn't capture an image. Please check the camera." ∧
      create_listing_tool (some none) get_item_details create_ebay_listing image_url =
          "Sorry, I couldn't capture an image. Please check the camera." ∧
      isApology "Sorry, I couldn't capture an image. Please check the camera." := by
  intro identify_cash read_packaging identify_item get_item_details create_ebay_listing url
  exact ⟨rfl, rfl, rfl, rfl, by decide, by decide⟩

/-- C6: when `capture()` yields non-empty bytes `b`, `capture_base64()`
yields a base64 string that decodes back to exactly `b`. -/
theorem capture_base64_roundtrip (captureResult : Option (List Nat)) (b : List Nat)
    (hcap : captureResult = some b) (hne : b ≠ []) (hbytes : ∀ x ∈ b, x < 256) :
    ∃ s, capture_base64 captureResult = some s ∧ b64decodeString s = some b := by
  subst hcap
  exact ⟨b64encodeString b, by simp [capture_base64, hne], b64_string_roundtrip b hbytes⟩

theorem capture_base64_roundtrip_witness :
    ∃ s, capture_base64 (some [255, 216, 255, 224, 0]) = some s ∧
      b64decodeString s = some [255, 216, 255, 224, 0] :=
  capture_base64_roundtrip (some [255, 216, 255, 224, 0]) [255, 216, 255, 224, 0]
    rfl (by decide) (by decide)

/-- C7: `release()` is idempotent for both camera variants — a second
release leaves the state of the first release unchanged and issues no
further OpenCV call — and on a never-opened camera it is a no-op that
issues no call (and, being total, raises nothing). -/
theorem release_idempotent :
    (∀ cam : USBCamera,
        (USBCamera.release (USBCamera.release cam).1).1 = (USBCamera.release cam).1 ∧
        (USBCamera.release (USBCamera.release cam).1).2 = []) ∧
    (∀ device_index : Nat,
        USBCamera.release (USBCamera.init device_index) = (USBCamera.init device_index, [])) ∧
    (∀ cam : PiCamera, cam.release = cam) := by
  refine ⟨fun cam => ?_, fun device_index => rfl, fun cam => rfl⟩
  cases h : cam.cap <;> simp [USBCamera.release, h]

/-- C9: `PiCamera.is_available` returns any cached verdict without running a
probe, and a fresh camera driven through `k ≥ 1` calls answers every call
with the first probe's boolean while executing exactly one subprocess
probe — so a first failed probe pins the camera unavailable for the life of
the object even if later probes would succeed. -/
theorem pi_availability_cached :
    (∀ (probe : Nat → ProbeOutcome) (cam : PiCamera) (v : Bool) (n : Nat),
        cam._available = some v → cam.is_available probe n = (v, cam, n)) ∧
    (∀ (probe : Nat → ProbeOutcome) (k : Nat), 0 < k →
        PiCamera.availCalls probe k =
          (List.replicate k (probeAvailable (probe 0)),
           ⟨some (probeAvailable (probe 0))⟩, 1)) := by
  constructor
  · intro probe cam v n h
    simp [PiCamera.is_available, h]
  · intro probe k hk
    induction k with
    | zero => omega
    | succ k ih =>
      rcases Nat.eq_zero_or_pos k with h0 | hpos
      · subst h0
        simp [PiCamera.availCalls, PiCamera.init, PiCamera.is_available]
      · rw [PiCamera.availCalls, ih hpos]
        simp [PiCamera.is_available, List.replicate_succ']

theorem pi_availability_cached_witness :
    PiCamera.is_available ⟨some false⟩ (fun _ => ProbeOutcome.ran 0 "OK") 1 =
      (false, ⟨some false⟩, 1) ∧
    PiCamera.availCalls
      (fun n => if n = 0 then ProbeOutcome.timeoutExpired else ProbeOutcome.ran 0 "OK") 3 =
      ([false, false, false], ⟨some false⟩, 1) := by
  constructor
  · exact pi_availability_cached.1 _ ⟨some false⟩ false 1 rfl
  · have h := pi_availability_cached.2
      (fun n => if n = 0 then ProbeOutcome.timeoutExpired else ProbeOutcome.ran 0 "OK") 3
      (by decide)
    simpa using h

/-- C10: the base-class encodings treat empty capture output as failure by
truthiness: both `None` and the empty byte string make `capture_base64`
return `None` and `save_capture` return `False` writing nothing; non-empty
bytes are written exactly and `True` returned, unless the write raises an
`IOError`, which yields `False`. -/
theorem capture_encodings_truthiness :
    (capture_base64 none = none ∧ capture_base64 (some []) = none) ∧
    (∀ write, save_capture none write = (false, none) ∧
        save_capture (some []) write = (false, none)) ∧
    (∀ b write, b ≠ [] → write b = WriteOutcome.ok →
        save_capture (some b) write = (true, some b)) ∧
    (∀ b write m, b ≠ [] → write b = WriteOutcome.ioError m →
        save_capture (some b) write = (false, none)) := by
  refine ⟨⟨rfl, rfl⟩, fun write => ⟨rfl, rfl⟩, ?_, ?_⟩
  · intro b write hb hw
    simp [save_capture, hb, hw]
  · intro b write m hb hw
    simp [save_capture, hb, hw]

theorem capture_encodings_truthiness_witness :
    save_capture (some [1, 2]) (fun _ => WriteOutcome.ok) = (true, some [1, 2]) ∧
    save_capture (some [1, 2]) (fun _ => WriteOutcome.ioError "disk full") = (false, none) :=
  ⟨capture_encodings_truthiness.2.2.1 [1, 2] _ (by decide) rfl,
   capture_encodings_truthiness.2.2.2 [1, 2] _ "disk full" (by decide) rfl⟩

/-- C8: `USBCamera.capture` on an openable device issues exactly five
`grab()` calls, then one `read()`; a successful read is encoded as JPEG at
the fixed quality 90 and the encode outcome is the result; an unopenable
device, a failed read, or a failed encode all yield the no-image value
`none` (the function is total, so nothing is raised). -/
theorem usb_capture_flushes_then_encodes :
    ∀ (cam : USBCamera) (videoCapture : CVDevice)
      (imencode : Nat → Nat → Option (List Nat)),
      ((cam.getCapture videoCapture).2.opened = false →
          cam.capture videoCapture imencode = (none, (cam.getCapture videoCapture).1, [])) ∧
      ((cam.getCapture videoCapture).2.opened = true →
        (cam.getCapture videoCapture).2.readResult = none →
          cam.capture videoCapture imencode =
            (none, (cam.getCapture videoCapture).1,
             List.replicate 5 CVAction.grab ++ [CVAction.read])) ∧
      (∀ frame, (cam.getCapture videoCapture).2.opened = true →
        (cam.getCapture videoCapture).2.readResult = some frame →
          (cam.capture videoCapture imencode).1 = imencode frame 90 ∧
          (cam.capture videoCapture imencode).2.2 =
            List.replicate 5 CVAction.grab ++
              [CVAction.read, CVAction.encodeJpeg frame 90]) := by
  intro cam videoCapture imencode
  rcases hgc : cam.getCapture videoCapture with ⟨cam', d⟩
  refine ⟨?_, ?_, ?_⟩
  · intro hopen
    simp only [] at hopen
    simp [USBCamera.capture, hgc, hopen]
  · intro hopen hread
    simp only [] at hopen hread
    simp [USBCamera.capture, hgc, hopen, hread]
  · intro frame hopen hread
    simp only [] at hopen hread
    cases henc : imencode frame 90 <;>
      simp [USBCamera.capture, hgc, hopen, hread, henc]

theorem usb_capture_flushes_then_encodes_witness :
    ((USBCamera.init 0).capture ⟨true, some 7⟩ (fun frame q => some [frame, q])).1 =
      some [7, 90] ∧
    ((USBCamera.init 0).capture ⟨true, some 7⟩ (fun frame q => some [frame, q])).2.2 =
      List.replicate 5 CVAction.grab ++ [CVAction.read, CVAction.encodeJpeg 7 90] := by
  have h := (usb_capture_flushes_then_encodes (USBCamera.init 0) ⟨true, some 7⟩
    (fun frame q => some [frame, q])).2.2 7 rfl rfl
  exact ⟨h.1.trans rfl, h.2⟩

/-- C5: constructing a `CashRecognizer` with no explicit key in an
environment whose `GOOGLE_API_KEY` is unset (or empty) raises a
configuration error naming that variable; `check_environment` lists every
required variable whose value is falsy as a formatted line; and when the
check fails, startup exits with status 1 before the camera is ever
initialized. -/
theorem missing_configuration_fatal :
    (∀ env : String → Option String, strTruthy (env "GOOGLE_API_KEY") = false →
        ∃ m, CashRecognizer.init none env = .error m ∧ "GOOGLE_API_KEY".data <:+: m.data) ∧
    (∀ (env : String → Option String) (var desc : String),
        (var, desc) ∈ requiredEnvVars → strTruthy (env var) = false →
        ("  - " ++ var ++ ": " ++ desc) ∈ (check_environment env).2) ∧
    (∀ (env : String → Option String) (wakeWordFileExists : Bool),
        (check_environment env).1 = false →
        mainStartup env wakeWordFileExists = ([StartupStep.envCheck], some 1) ∧
        StartupStep.cameraInit ∉ [StartupStep.envCheck]) := by
  refine ⟨?_, ?_, ?_⟩
  · intro env henv
    have h0 : strTruthy none = false := rfl
    have herr : CashRecognizer.init none env =
        .error "Google API key required. Set GOOGLE_API_KEY environment variable." := by
      simp [CashRecognizer.init, h0, henv]
    exact ⟨_, herr, by decide⟩
  · intro env var desc hmem henv
    refine List.mem_map_of_mem _ (List.mem_filter.mpr ⟨hmem, ?_⟩)
    simp [henv]
  · intro env wakeWordFileExists hfail
    exact ⟨by simp [mainStartup, hfail], by decide⟩

/-- C2 counterexample: the claim quantifies over all three call shapes for
all three clients, but the `PackagingReader` class body defines no
`analyze_base64` — a call to that shape is an `AttributeError` escaping to
the caller, not a string. -/
theorem packaging_reader_no_analyze_base64 :
    "analyze_base64" ∉ PackagingReader.analyzeMethods ∧
    "analyze_base64" ∈ CashRecognizer.analyzeMethods ∧
    "analyze_base64" ∈ ItemRecognizer.analyzeMethods := by decide

/-- C2 (amended to the call shapes each client defines — the packaging
reader has only the bytes and file shapes): every defined analyze method is
total, returning either the remote model's text verbatim or, on any failure
of the remote call, the file read, or the base64 decode, a non-empty
apologetic string — no exception reaches the caller. -/
theorem vision_analyze_total_or_apology :
    PackagingReader.analyzeMethods = ["analyze_image_bytes", "analyze_image_file"] ∧
    (∀ gen image_bytes,
      (∃ t, gen BANKNOTE_PROMPT (b64encodeString image_bytes) = .ok t ∧
          CashRecognizer.analyze_image_bytes gen image_bytes = t) ∨
        isApology (CashRecognizer.analyze_image_bytes gen image_bytes)) ∧
    (∀ gen fs path,
      (∃ bs t, fs path = FileReadOutcome.ok bs ∧
          gen BANKNOTE_PROMPT (b64encodeString bs) = .ok t ∧
          CashRecognizer.analyze_image_file gen fs path = t) ∨
        isApology (CashRecognizer.analyze_image_file gen fs path)) ∧
    (∀ gen s,
      (∃ bs t, b64decodeString s = some bs ∧
          gen BANKNOTE_PROMPT (b64encodeString bs) = .ok t ∧
          CashRecognizer.analyze_base64 gen s = t) ∨
        isApology (CashRecognizer.analyze_base64 gen s)) ∧
    (∀ gen image_bytes,
      (∃ t, gen PACKAGING_PROMPT (b64encodeString image_bytes) = .ok t ∧
          PackagingReader.analyze_image_bytes gen image_bytes = t) ∨
        isApology (PackagingReader.analyze_image_bytes gen image_bytes)) ∧
    (∀ gen fs path,
      (∃ bs t, fs path = FileReadOutcome.ok bs ∧
          gen PACKAGING_PROMPT (b64encodeString bs) = .ok t ∧
          PackagingReader.analyze_image_file gen fs path = t) ∨
        isApology (PackagingReader.analyze_image_file gen fs path)) ∧
    (∀ gen image_bytes,
      (∃ t, gen ECOMMERCE_ITEM_PROMPT (b64encodeString image_bytes) = .ok t ∧
          ItemRecognizer.analyze_image_bytes gen image_bytes = t) ∨
        isApology (ItemRecognizer.analyze_image_bytes gen image_bytes)) ∧
    (∀ gen fs path,
      (∃ bs t, fs path = FileReadOutcome.ok bs ∧
          gen ECOMMERCE_ITEM_PROMPT (b64encodeString bs) = .ok t ∧
          ItemRecognizer.analyze_image_file gen fs path = t) ∨
        isApology (ItemRecognizer.analyze_image_file gen fs path)) ∧
    (∀ gen s,
      (∃ bs t, b64decodeString s = some bs ∧
          gen ECOMMERCE_ITEM_PROMPT (b64encodeString bs) = .ok t ∧
          ItemRecognizer.analyze_base64 gen s = t) ∨
        isApology (ItemRecognizer.analyze_base64 gen s)) := by
  refine ⟨rfl, ?_, ?_, ?_, ?_, ?_, ?_, ?_, ?_⟩
  · intro gen image_bytes
    cases hg : gen BANKNOTE_PROMPT (b64encodeString image_bytes) with
    | ok t => exact .inl ⟨t, rfl, by simp [CashRecognizer.analyze_image_bytes, hg]⟩
    | error e =>
      refine .inr ?_
      simp only [CashRecognizer.analyze_image_bytes, hg]
      exact isApology_append _ _ (by decide) (by decide)
  · intro gen fs path
    cases hf : fs path with
    | ok bs =>
      cases hg : gen BANKNOTE_PROMPT (b64encodeString bs) with
      | ok t =>
        exact .inl ⟨bs, t, rfl, hg, by
          simp [CashRecognizer.analyze_image_file, CashRecognizer.analyze_image_bytes, hf, hg]⟩
      | error e =>
        refine .inr ?_
        simp only [CashRecognizer.analyze_image_file, CashRecognizer.analyze_image_bytes, hf, hg]
        exact isApology_append _ _ (by decide) (by decide)
    | fileNotFound =>
      refine .inr ?_
      simp only [CashRecognizer.analyze_image_file, hf]
      exact isApology_append _ _ (by decide) (by decide)
    | exn m =>
      refine .inr ?_
      simp only [CashRecognizer.analyze_image_file, hf]
      exact isApology_append _ _ (by decide) (by decide)
  · intro gen s
    cases hd : b64decodeString s with
    | some bs =>
      cases hg : gen BANKNOTE_PROMPT (b64encodeString bs) with
      | ok t =>
        exact .inl ⟨bs, t, rfl, hg, by
          simp [CashRecognizer.analyze_base64, CashRecognizer.analyze_image_bytes, hd, hg]⟩
      | error e =>
        refine .inr ?_
        simp only [CashRecognizer.analyze_base64, CashRecognizer.analyze_image_bytes, hd, hg]
        exact isApology_append _ _ (by decide) (by decide)
    | none =>
      refine .inr ?_
      simp only [CashRecognizer.analyze_base64, hd]
      exact isApology_append _ _ (by decide) (by decide)
  · intro gen image_bytes
    cases hg : gen PACKAGING_PROMPT (b64encodeString image_bytes) with
    | ok t => exact .inl ⟨t, rfl, by simp [PackagingReader.analyze_image_bytes, hg]⟩
    | error e =>
      refine .inr ?_
      simp only [PackagingReader.analyze_image_bytes, hg]
      exact isApology_append _ _ (by decide) (by decide)
  · intro gen fs path
    cases hf : fs path with
    | ok bs =>
      cases hg : gen PACKAGING_PROMPT (b64encodeString bs) with
      | ok t =>
        exact .inl ⟨bs, t, rfl, hg, by
          simp [PackagingReader.analyze_image_file, PackagingReader.analyze_image_bytes, hf, hg]⟩
      | error e =>
        refine .inr ?_
        simp only [PackagingReader.analyze_image_file, PackagingReader.analyze_image_bytes, hf, hg]
        exact isApology_append _ _ (by decide) (by decide)
    | fileNotFound =>
      refine .inr ?_
      simp only [PackagingReader.analyze_image_file, hf]
      exact isApology_append _ _ (by decide) (by decide)
    | exn m =>
      refine .inr ?_
      simp only [PackagingReader.analyze_image_file, hf]
      exact isApology_append _ _ (by decide) (by decide)
  · intro gen image_bytes
    cases hg : gen ECOMMERCE_ITEM_PROMPT (b64encodeString image_bytes) with
    | ok t => exact .inl ⟨t, rfl, by simp [ItemRecognizer.analyze_image_bytes, hg]⟩
    | error e =>
      refine .inr ?_
      simp only [ItemRecognizer.analyze_image_bytes, hg]
      exact isApology_append _ _ (by decide) (by decide)
  · intro gen fs path
    cases hf : fs path with
    | ok bs =>
      cases hg : gen ECOMMERCE_ITEM_PROMPT (b64encodeString bs) with
      | ok t =>
        exact .inl ⟨bs, t, rfl, hg, by
          simp [ItemRecognizer.analyze_image_file, ItemRecognizer.analyze_image_bytes, hf, hg]⟩
      | error e =>
        refine .inr ?_
        simp only [ItemRecognizer.analyze_image_file, ItemRecognizer.analyze_image_bytes, hf, hg]
        exact isApology_append _ _ (by decide) (by decide)
    | fileNotFound =>
      refine .inr ?_
      simp only [ItemRecognizer.analyze_image_file, hf]
      exact isApology_append _ _ (by decide) (by decide)
    | exn m =>
      refine .inr ?_
      simp only [ItemRecognizer.analyze_image_file, hf]
      exact isApology_append _ _ (by decide) (by decide)
  · intro gen s
    cases hd : b64decodeString s with
    | some bs =>
      cases hg : gen ECOMMERCE_ITEM_PROMPT (b64encodeString bs) with
      | ok t =>
        exact .inl ⟨bs, t, rfl, hg, by
          simp [ItemRecognizer.analyze_base64, ItemRecognizer.analyze_image_bytes, hd, hg]⟩
      | error e =>
        refine .inr ?_
        simp only [ItemRecognizer.analyze_base64, ItemRecognizer.analyze_image_bytes, hd, hg]
        exact isApology_append _ _ (by decide) (by decide)
    | none =>
      refine .inr ?_
      simp only [ItemRecognizer.analyze_base64, hd]
      exact isApology_append _ _ (by decide) (by decide)

theorem missing_configuration_fatal_witness :
    (∃ m, CashRecognizer.init none (fun _ => none) = .error m ∧
        "GOOGLE_API_KEY".data <:+: m.data) ∧
    ("  - " ++ "GOOGLE_API_KEY" ++ ": " ++ "Google Gemini API key") ∈
      (check_environment (fun _ => none)).2 ∧
    mainStartup (fun _ => none) true = ([StartupStep.envCheck], some 1) :=
  ⟨missing_configuration_fatal.1 (fun _ => none) rfl,
   missing_configuration_fatal.2.1 (fun _ => none) "GOOGLE_API_KEY"
     "Google Gemini API key" (by decide) rfl,
   (missing_configuration_fatal.2.2 (fun _ => none) true (by decide)).1⟩

theorem pollLoop_reaches_terminal (statuses : Nat → String) (eid : String)
    (interval maxw : ℚ) (hint : 0 ≤ interval) (m : Nat)
    (hterm : statuses m ∈ terminalStatuses)
    (hwait : (m : ℚ) * interval ≤ maxw) :
    ∀ fuel k, k ≤ m → m - k < fuel →
      (∀ j, k ≤ j → j < m → statuses j ∉ terminalStatuses) →
      pollLoop statuses eid interval maxw fuel k =
        some (⟨statuses m, eid⟩,
              List.replicate (m - k + 1) (PollAction.statusCheck eid)) := by
  intro fuel
  induction fuel with
  | zero => intro k _ hf _; omega
  | succ fuel ih =>
    intro k hkm hf hnon
    have hk_le : (k : ℚ) * interval ≤ maxw := by
      have hcast : (k : ℚ) ≤ (m : ℚ) := by exact_mod_cast hkm
      nlinarith
    simp only [pollLoop]
    rw [if_neg (not_lt.mpr hk_le)]
    rcases Nat.lt_or_ge k m with hlt | hge
    · rw [if_neg (hnon k le_rfl hlt)]
      rw [ih (k + 1) hlt (by omega) (fun j hj1 hj2 => hnon j (by omega) hj2)]
      have hrep : m - k + 1 = (m - (k + 1) + 1) + 1 := by omega
      rw [hrep]
      simp [List.replicate_succ]
    · have hkm2 : k = m := Nat.le_antisymm hkm hge
      subst hkm2
      rw [if_pos hterm]
      simp

theorem pollLoop_timeout (statuses : Nat → String) (eid : String)
    (interval maxw : ℚ) (hnon : ∀ j, statuses j ∉ terminalStatuses) :
    ∀ (fuel k : Nat), maxw < ((k : ℚ) + (fuel : ℚ)) * interval →
      ∃ tr, pollLoop statuses eid interval maxw (fuel + 1) k =
          some (⟨"timeout", eid⟩, tr) ∧ ∀ s, PollAction.cancelExecution s ∉ tr := by
  intro fuel
  induction fuel with
  | zero =>
    intro k h
    have hk : maxw < (k : ℚ) * interval := by push_cast at h; linarith
    exact ⟨[], by simp [pollLoop, hk], by simp⟩
  | succ fuel ih =>
    intro k h
    by_cases hk : maxw < (k : ℚ) * interval
    · exact ⟨[], by simp [pollLoop, hk], by simp⟩
    · obtain ⟨tr, htr, hnc⟩ := ih (k + 1) (by push_cast at h ⊢; nlinarith)
      refine ⟨PollAction.statusCheck eid :: tr, ?_, ?_⟩
      · simp only [pollLoop] at htr ⊢
        rw [if_neg hk, if_neg (hnon k), htr]
      · intro s hs
        rcases List.mem_cons.mp hs with h1 | h2
        · exact PollAction.noConfusion h1
        · exact hnc s h2

/-- C3: the `create_listing` poll loop stops at the first status in
`\x7bcompleted, failed, cancelled\x7d` and returns that status with the
execution id, having issued exactly one status check per polled status; on
the sequence `[running, running, completed]` (interval 2s, max wait 300s)
it returns `completed` after exactly 3 status checks; and when no terminal
status appears before the elapsed time exceeds `max_wait` it returns
`timeout` with the execution id, its remote-call trace containing no
cancellation. -/
theorem create_listing_poll_spec :
    (∀ (statuses : Nat → String) (execution_id : String)
        (poll_interval max_wait : ℚ) (m fuel : Nat),
        0 ≤ poll_interval →
        statuses m ∈ terminalStatuses →
        (∀ j < m, statuses j ∉ terminalStatuses) →
        (m : ℚ) * poll_interval ≤ max_wait → m < fuel →
        AsteroidAgent.create_listing_poll statuses execution_id poll_interval
            max_wait fuel =
          some (⟨statuses m, execution_id⟩,
                List.replicate (m + 1) (PollAction.statusCheck execution_id))) ∧
    (AsteroidAgent.create_listing_poll
        (fun n => ["running", "running", "completed"].getD n "running")
        "exec-1" 2 300 200 =
      some (⟨"completed", "exec-1"⟩,
            List.replicate 3 (PollAction.statusCheck "exec-1"))) ∧
    (∀ (statuses : Nat → String) (execution_id : String)
        (poll_interval max_wait : ℚ) (fuel : Nat),
        (∀ j, statuses j ∉ terminalStatuses) →
        max_wait < (fuel : ℚ) * poll_interval →
        ∃ tr, AsteroidAgent.create_listing_poll statuses execution_id poll_interval
            max_wait (fuel + 1) = some (⟨"timeout", execution_id⟩, tr) ∧
          ∀ s, PollAction.cancelExecution s ∉ tr) := by
  refine ⟨?_, ?_, ?_⟩
  · intro statuses execution_id poll_interval max_wait m fuel hint hterm hbefore hwait hfuel
    have h := pollLoop_reaches_terminal statuses execution_id poll_interval max_wait
      hint m hterm hwait fuel 0 (Nat.zero_le m) (by omega)
      (fun j hj1 hj2 => hbefore j hj2)
    simpa [AsteroidAgent.create_listing_poll] using h
  · have h := pollLoop_reaches_terminal
      (fun n => ["running", "running", "completed"].getD n "running") "exec-1" 2 300
      (by norm_num) 2 (by decide) (by push_cast; norm_num) 200 0 (by omega) (by omega)
      (fun j hj1 hj2 => by interval_cases j <;> decide)
    simpa [AsteroidAgent.create_listing_poll, List.getD] using h
  · intro statuses execution_id poll_interval max_wait fuel hnon hwait
    have h := pollLoop_timeout statuses execution_id poll_interval max_wait hnon fuel 0
      (by push_cast; simpa using hwait)
    simpa [AsteroidAgent.create_listing_poll] using h

theorem create_listing_poll_spec_witness :
    AsteroidAgent.create_listing_poll
        (fun n => ["running", "running", "completed"].getD n "running")
        "exec-1" 2 300 200 =
      some (⟨"completed", "exec-1"⟩,
            List.replicate 3 (PollAction.statusCheck "exec-1")) ∧
    (∃ tr, AsteroidAgent.create_listing_poll (fun _ => "running") "exec-2" 2 3 3 =
        some (⟨"timeout", "exec-2"⟩, tr) ∧ ∀ s, PollAction.cancelExecution s ∉ tr) := by
  constructor
  · exact create_listing_poll_spec.1
      (fun n => ["running", "running", "completed"].getD n "running")
      "exec-1" 2 300 2 200 (by norm_num) (by decide)
      (by intro j hj; interval_cases j <;> decide) (by norm_num) (by norm_num)
  · exact create_listing_poll_spec.2.2 (fun _ => "running") "exec-2" 2 3 2
      (by intro j; change "running" ∉ terminalStatuses; decide) (by push_cast; norm_num)

/-- C4 counterexample: when the retry against the alternate also fails, the
client does not commit — the state keeps the original `agent_id` with the
fallback still configured (the claim asserts `agent_id` is replaced and the
fallback cleared), and a subsequent call attempts the original id and
retries against the alternate again (the claim says subsequent calls use
the alternate directly with no further retry). -/
theorem agent_403_fallback_counterexample :
    (AsteroidAgent.execute_agent ⟨"agent-primary", some "agent-alt"⟩
        (fun _ _ => .error ⟨some 403, "(403) Forbidden"⟩) 0).2.1 =
      ⟨"agent-primary", some "agent-alt"⟩ ∧
    (AsteroidAgent.execute_agent ⟨"agent-primary", some "agent-alt"⟩
        (fun _ _ => .error ⟨some 403, "(403) Forbidden"⟩) 2).2.2.2 =
      ["agent-primary", "agent-alt"] :=
  ⟨rfl, rfl⟩

/-- C4 (amended): a first call rejected with a 403-equivalent while an
alternate id is configured triggers exactly one retry against the
alternate; if that retry succeeds the client commits (`agent_id` replaced,
fallback cleared) and every call from the committed state goes to the
alternate directly as the sole attempt, with no retry; if the retry itself
fails its error propagates without committing; any other error, or a 403
with no alternate configured, is re-raised after the single attempt. -/
theorem agent_403_fallback_retry :
    ∀ (post post2 : Nat → String → Except ApiError ExecResponse)
      (st : AgentState) (n m : Nat) (fb : String) (exc exc2 : ApiError)
      (r : ExecResponse),
      (st.fallback_agent_id = some fb → fb ≠ "" →
        post n st.agent_id = .error exc → effective403 exc = true →
        post (n + 1) fb = .ok r →
        AsteroidAgent.execute_agent st post n =
          (.ok r, ⟨fb, none⟩, n + 2, [st.agent_id, fb])) ∧
      (st.fallback_agent_id = some fb → fb ≠ "" →
        post n st.agent_id = .error exc → effective403 exc = true →
        post (n + 1) fb = .error exc2 →
        AsteroidAgent.execute_agent st post n =
          (.error exc2, st, n + 2, [st.agent_id, fb])) ∧
      (post n st.agent_id = .error exc → effective403 exc = false →
        AsteroidAgent.execute_agent st post n =
          (.error exc, st, n + 1, [st.agent_id])) ∧
      (st.fallback_agent_id = none → post n st.agent_id = .error exc →
        AsteroidAgent.execute_agent st post n =
          (.error exc, st, n + 1, [st.agent_id])) ∧
      (AsteroidAgent.execute_agent ⟨fb, none⟩ post2 m =
        (post2 m fb, ⟨fb, none⟩, m + 1, [fb])) := by
  intro post post2 st n m fb exc exc2 r
  refine ⟨?_, ?_, ?_, ?_, ?_⟩
  · intro hfb hne hpost h403 hpost2
    have hb : (fb == "") = false := by simp [hne]
    simp [AsteroidAgent.execute_agent, hpost, hfb, h403, strTruthy, hb, hpost2]
  · intro hfb hne hpost h403 hpost2
    have hb : (fb == "") = false := by simp [hne]
    simp [AsteroidAgent.execute_agent, hpost, hfb, h403, strTruthy, hb, hpost2]
  · intro hpost h403
    simp [AsteroidAgent.execute_agent, hpost, h403]
  · intro hfb hpost
    simp [AsteroidAgent.execute_agent, hpost, hfb, strTruthy]
  · cases hp : post2 m fb with
    | ok resp => simp [AsteroidAgent.execute_agent, hp, strTruthy]
    | error exc3 => simp [AsteroidAgent.execute_agent, hp, strTruthy]

theorem agent_403_fallback_retry_witness :
    AsteroidAgent.execute_agent ⟨"agent-primary", some "agent-alt"⟩
        (fun i _ => if i == 0 then .error ⟨some 403, "Forbidden"⟩ else .ok ⟨"exec-7"⟩) 0 =
      (.ok ⟨"exec-7"⟩, ⟨"agent-alt", none⟩, 2, ["agent-primary", "agent-alt"]) ∧
    AsteroidAgent.execute_agent ⟨"agent-alt", none⟩
        (fun _ _ => .ok ⟨"exec-8"⟩) 5 =
      (.ok ⟨"exec-8"⟩, ⟨"agent-alt", none⟩, 6, ["agent-alt"]) := by
  constructor
  · exact (agent_403_fallback_retry
      (fun i _ => if i == 0 then .error ⟨some 403, "Forbidden"⟩ else .ok ⟨"exec-7"⟩)
      (fun _ _ => .ok ⟨"exec-8"⟩) ⟨"agent-primary", some "agent-alt"⟩ 0 5 "agent-alt"
      ⟨some 403, "Forbidden"⟩ ⟨some 403, "Forbidden"⟩ ⟨"exec-7"⟩).1
      rfl (by decide) rfl rfl rfl
  · exact (agent_403_fallback_retry
      (fun i _ => if i == 0 then .error ⟨some 403, "Forbidden"⟩ else .ok ⟨"exec-7"⟩)
      (fun _ _ => .ok ⟨"exec-8"⟩) ⟨"agent-primary", some "agent-alt"⟩ 0 5 "agent-alt"
      ⟨some 403, "Forbidden"⟩ ⟨some 403, "Forbidden"⟩ ⟨"exec-7"⟩).2.2.2.2

end RaspberryPi
